import Mathlib

/-!
Verification of the Glue `Trigger` declaration-builder family.

The development shallowly embeds the three revisions of the trigger module:

* `TriggerLib` — `packages/@aws-cdk/aws-glue/lib/trigger.ts` (the `Trigger`
  construct, the `TriggerType` singleton class and the `TriggerState` enum);
* `Part001` — the revision holding the plain `TriggerType`/`TriggerState`
  enumerations and the `ScheduledTrigger` construct;
* `Part000` — the revision holding the `TriggerBase` event/metric convenience
  layer (`onEvent`, `onStateChange`, `onSuccess`, `onFailure`, `onTimeout`,
  `metricJobStateRule`).

External collaborators (the scope tree of the `constructs` library, the ARN
formatting of the templating engine, deferred values) are modelled from the
spec where marked; everything else is translated directly from the source.
-/

namespace AwsGlue

/-- Modelled from the spec: the deploy-time resolution environment of the
external templating engine — the deferred partition, region and account values,
together with the physical resource name the engine assigns to the emitted
trigger resource (the resolution of the resource ref). -/
structure Env where
  partition : String
  region : String
  account : String
  physicalName : String

/-- Modelled from the spec: a deferred/symbolic string value, unknown at
declaration time and resolved at deploy time by the external templating
engine against the resolution environment. -/
abbrev Deferred := Env → String

/-- The components handed to the templating engine when formatting an ARN:
service, resource type and resource name, exactly the fields passed by
the source function triggeerArn. -/
structure ArnComponents where
  service : String
  resource : String
  resourceName : String

/-- Modelled from the spec: the external templating engine's formatArn,
following the fixed template
arn:(partition):(service):(region):(account):(resource)/(resourceName),
the resolution shape also asserted by the repository's own unit test. -/
def formatArn (env : Env) (c : ArnComponents) : String :=
  "arn:" ++ env.partition ++ ":" ++ c.service ++ ":" ++ env.region ++ ":" ++
    env.account ++ ":" ++ c.resource ++ "/" ++ c.resourceName

/-- Errors surfaced synchronously at declaration time: a sibling identifier
collision propagated from the scope-tree collaborator, and a JavaScript
runtime type error raised by dereferencing a property of an absent value. -/
inductive CdkError where
  | DuplicateDeclarationError (id : String)
  | TypeError (msg : String)
deriving DecidableEq

/-- The events.Schedule collaborator: the source only reads its
expressionString field. -/
structure Schedule where
  expressionString : String
deriving DecidableEq

/-- The iam.Role collaborator, as configured at its single creation site in
the source: the trusted service principal and the attached managed policies. -/
structure Role where
  assumedBy : String
  managedPolicies : List String
deriving DecidableEq

/-- An opaque downstream action descriptor; the source declares the actions
field with type any[] and passes it through unchanged. -/
structure Action where
  payload : String
deriving DecidableEq

/-- An opaque condition descriptor; the source declares the predicate field
with type any and passes it through unchanged. -/
structure Predicate where
  payload : String
deriving DecidableEq

/-- events.OnEventOptions: the two fields the source reads (description and
target); absence of a field is modelled as none. -/
structure OnEventOptions where
  description : Option String
  target : Option String
deriving DecidableEq

/-- The event pattern accumulated on an events.Rule by the addEventPattern
calls of the source: source, detail-type, detail.jobName and detail.state
clauses. -/
structure EventPattern where
  source : List String
  detailType : List String
  detailJobName : List String
  detailState : List String
deriving DecidableEq

/-- The detail.state clause built from a state token, as in the source's
onStateChange call addEventPattern with detail state equal to the singleton
list holding the state's string token. -/
def stateDetailClause (stateToken : String) : List String :=
  [stateToken]

/-- The events.Rule collaborator: its description, its targets and the
event pattern accumulated so far. -/
structure Rule where
  description : Option String
  targets : List String
  pattern : EventPattern
deriving DecidableEq

/-- The generated CfnTrigger resource record — the declarative record emitted
to the templating engine, field for field the produced artifact shape of the
spec: name, description, type token, actions, schedule expression, predicate,
workflow name, start-on-creation flag and tags. -/
structure CfnTriggerProps where
  workflowName : Option String
  tags : Option (List (String × String))
  startOnCreation : Option Bool
  schedule : Option String
  predicate : Option Predicate
  name : Option String
  actions : List Action
  description : Option String
  type : String
deriving DecidableEq

/-- The kinds of child nodes this component registers in the scope tree:
event rules, the default service role, the emitted CfnTrigger record, and
nested constructs such as a Trigger registered in its parent scope. -/
inductive ConstructKind where
  | rule (r : Rule)
  | role (r : Role)
  | cfnTrigger (c : CfnTriggerProps)
  | construct
deriving DecidableEq

/-- Modelled from the spec: a node of the external scope/identity tree
collaborator, holding its registered children keyed by identifier. -/
structure Node where
  children : List (String × ConstructKind)
deriving DecidableEq

/-- Look up the first child with the given identifier in a child list. -/
def findChild : List (String × ConstructKind) → String → Option ConstructKind
  | [], _ => none
  | p :: rest, id => if p.1 = id then some p.2 else findChild rest id

/-- node.tryFindChild of the scope-tree collaborator: the previously
registered child under the identifier, or none. -/
def Node.tryFindChild (n : Node) (id : String) : Option ConstructKind :=
  findChild n.children id

/-- Modelled from the spec: declareChild of the scope-tree collaborator;
registering a child under an identifier already in use fails with
DuplicateDeclarationError, otherwise the child is appended. -/
def Node.declareChild (n : Node) (id : String) (k : ConstructKind) : Except CdkError Node :=
  match n.tryFindChild id with
  | some _ => Except.error (CdkError.DuplicateDeclarationError id)
  | none => Except.ok ⟨n.children ++ [(id, k)]⟩

/-- Replace the child registered under the given identifier; this models the
in-place mutation of an already registered rule object by a later
addEventPattern call on it. -/
def Node.setChild (n : Node) (id : String) (k : ConstructKind) : Node :=
  ⟨n.children.map (fun p => if p.1 = id then (id, k) else p)⟩

/-- The number of identity-role declaration nodes registered under a node. -/
def Node.roleChildCount (n : Node) : Nat :=
  (n.children.filter (fun p => match p.2 with | ConstructKind.role _ => true | _ => false)).length

/-- getResourceNameAttribute applied to the emitted resource's ref: a deferred
string resolving at deploy time to the physical name of the resource. -/
def getResourceNameAttribute : Deferred :=
  fun env => env.physicalName

/-- The helper triggeerArn of lib/trigger.ts: formats the ARN of the trigger
through the templating engine with service glue, resource type trigger and the
(deferred) trigger name as resource name. -/
def triggeerArn (jobName : Deferred) : Deferred :=
  fun env => formatArn env ⟨"glue", "trigger", jobName env⟩

namespace TriggerLib

/-- The TriggerType singleton class of lib/trigger.ts: a closed set of values
each carrying a name token (the class constructor is private). -/
structure TriggerType where
  name : String
deriving DecidableEq

/-- The static member Scheduled of the TriggerType class. -/
def TriggerType.Scheduled : TriggerType := ⟨"SCHEDULED"⟩

/-- The static member JobEvents of the TriggerType class. -/
def TriggerType.JobEvents : TriggerType := ⟨"JOB_EVENTS"⟩

/-- The static member onDemand of the TriggerType class. -/
def TriggerType.onDemand : TriggerType := ⟨"ON_DEMAND"⟩

/-- The static member conditional of the TriggerType class. -/
def TriggerType.conditional : TriggerType := ⟨"CONDITIONAL"⟩

/-- The TriggerState enum of lib/trigger.ts (four variants). -/
inductive TriggerState where
  | CREATED
  | ACTIVATED
  | DEACTIVATED
  | ACTIVATING
deriving DecidableEq

/-- The string token carried by each TriggerState variant in lib/trigger.ts;
note the leading space on the ACTIVATED token, exactly as in the source. -/
def TriggerState.token : TriggerState → String
  | .CREATED => "CREATED"
  | .ACTIVATED => " ACTIVATED"
  | .DEACTIVATED => "DEACTIVATED"
  | .ACTIVATING => "ACTIVATING"

/-- The name of each TriggerState variant of lib/trigger.ts. -/
def TriggerState.variantName : TriggerState → String
  | .CREATED => "CREATED"
  | .ACTIVATED => "ACTIVATED"
  | .DEACTIVATED => "DEACTIVATED"
  | .ACTIVATING => "ACTIVATING"

/-- TriggerProps of lib/trigger.ts. The TypeScript type marks actions,
description, predicate, schedule, startOnCreation, type and workflowName as
required, but at run time a caller (such as the repository's own test) can
omit any of them, so fields read defensively nowhere in the source are
modelled as Option with none for an absent (undefined) value. -/
structure TriggerProps where
  actions : List Action
  description : Option String
  predicate : Option Predicate
  schedule : Option Schedule
  startOnCreation : Option Bool
  type : TriggerType
  workflowName : String
  triggerName : Option String
  tags : Option (List (String × String))
  role : Option Role

/-- The result of constructing a Trigger of lib/trigger.ts: the construct's
own child nodes, the resolved role, the grant principal, and the deferred
trigger name and ARN. -/
structure Trigger where
  node : Node
  role : Role
  grantPrincipal : Role
  triggerName : Deferred
  triggerArn : Deferred

/-- The default service role created when props.role is omitted: trusted by
glue.amazonaws.com and granted the AWSGlueServiceRole managed policy. -/
def serviceRole : Role :=
  ⟨"glue.amazonaws.com", ["service-role/AWSGlueServiceRole"]⟩

/-- The identity-role child nodes registered by the Trigger constructor of
lib/trigger.ts: the single default ServiceRole node exactly when props.role
is absent, and none when an explicit role is supplied. -/
def roleChildren (explicitRole : Option Role) : List (String × ConstructKind) :=
  match explicitRole with
  | some _ => []
  | none => [("ServiceRole", ConstructKind.role serviceRole)]

/-- The CfnTrigger record built by the Trigger constructor of lib/trigger.ts
once the schedule has been dereferenced successfully: every field is the
corresponding props field passed through unchanged, and type is the name
token of the props type. -/
def cfnOf (props : TriggerProps) (sch : Schedule) : CfnTriggerProps :=
  { workflowName := some props.workflowName
    tags := props.tags
    startOnCreation := props.startOnCreation
    schedule := some sch.expressionString
    predicate := props.predicate
    name := props.triggerName
    actions := props.actions
    description := props.description
    type := props.type.name }

/-- The Trigger constructor of lib/trigger.ts. Steps in source order:
register this construct in the parent scope (the super call; a duplicate
identifier fails there with the collaborator's error, propagated unchanged),
resolve the role (creating the ServiceRole child exactly when props.role is
absent) and expose it as grantPrincipal, emit the CfnTrigger Resource child —
where props.schedule.expressionString is dereferenced without a guard and
raises a TypeError when the schedule is absent — and derive the deferred
name and ARN of the new resource. -/
def Trigger.construct (scope : Node) (id : String) (props : TriggerProps) :
    Except CdkError (Trigger × Node) :=
  match scope.declareChild id ConstructKind.construct with
  | Except.error e => Except.error e
  | Except.ok scope' =>
    match props.schedule with
    | none =>
      Except.error (CdkError.TypeError
        "Cannot read properties of undefined (reading expressionString)")
    | some sch =>
      Except.ok
        ({ node := ⟨roleChildren props.role ++
                    [("Resource", ConstructKind.cfnTrigger (cfnOf props sch))]⟩
           role := props.role.getD serviceRole
           grantPrincipal := props.role.getD serviceRole
           triggerName := getResourceNameAttribute
           triggerArn := triggeerArn getResourceNameAttribute }, scope')

/-- The CfnTrigger record registered by a constructed Trigger under its
Resource child, when present. -/
def Trigger.emittedRecord (t : Trigger) : Option CfnTriggerProps :=
  match t.node.tryFindChild "Resource" with
  | some (ConstructKind.cfnTrigger c) => some c
  | _ => none

end TriggerLib

namespace Part001

/-- The TriggerType enumeration of the part_001 revision: four variants,
each carrying its own name as string token. -/
inductive TriggerType where
  | SCHEDULED
  | EVENT
  | ON_DEMAND
  | CONDITIONAL
deriving DecidableEq

/-- The string token of each TriggerType enum variant. -/
def TriggerType.token : TriggerType → String
  | .SCHEDULED => "SCHEDULED"
  | .EVENT => "EVENT"
  | .ON_DEMAND => "ON_DEMAND"
  | .CONDITIONAL => "CONDITIONAL"

/-- The name of each TriggerType enum variant. -/
def TriggerType.variantName : TriggerType → String
  | .SCHEDULED => "SCHEDULED"
  | .EVENT => "EVENT"
  | .ON_DEMAND => "ON_DEMAND"
  | .CONDITIONAL => "CONDITIONAL"

/-- The TriggerState enumeration of the part_001 revision (eight variants). -/
inductive TriggerState where
  | CREATED
  | ACTIVATED
  | DEACTIVATED
  | ACTIVATING
  | CREATING
  | DEACTIVATING
  | DELETING
  | UPDATING
deriving DecidableEq

/-- The string token carried by each TriggerState variant of part_001; note
the leading space on the ACTIVATED token, exactly as in the source. -/
def TriggerState.token : TriggerState → String
  | .CREATED => "CREATED"
  | .ACTIVATED => " ACTIVATED"
  | .DEACTIVATED => "DEACTIVATED"
  | .ACTIVATING => "ACTIVATING"
  | .CREATING => "CREATING"
  | .DEACTIVATING => "DEACTIVATING"
  | .DELETING => "DELETING"
  | .UPDATING => "UPDATING"

/-- The name of each TriggerState variant of part_001. -/
def TriggerState.variantName : TriggerState → String
  | .CREATED => "CREATED"
  | .ACTIVATED => "ACTIVATED"
  | .DEACTIVATED => "DEACTIVATED"
  | .ACTIVATING => "ACTIVATING"
  | .CREATING => "CREATING"
  | .DEACTIVATING => "DEACTIVATING"
  | .DELETING => "DELETING"
  | .UPDATING => "UPDATING"

/-- ScheduledTriggerProps of the part_001 revision; schedule is dereferenced
with optional chaining in the source, so an absent value is tolerated. -/
structure ScheduledTriggerProps where
  actions : List Action
  description : Option String
  workflowName : Option String
  triggerName : Option String
  tags : Option (List (String × String))
  schedule : Option Schedule
  startOnCreation : Option Bool

/-- The result of constructing a ScheduledTrigger of part_001. -/
structure ScheduledTrigger where
  node : Node
  triggerName : Deferred
  triggerArn : Deferred

/-- The CfnTrigger record built by the ScheduledTrigger constructor of
part_001: props fields passed through unchanged, with the schedule read
through optional chaining and the type field fixed to the SCHEDULED token. -/
def cfnOf (props : ScheduledTriggerProps) : CfnTriggerProps :=
  { workflowName := props.workflowName
    tags := props.tags
    startOnCreation := props.startOnCreation
    schedule := props.schedule.map (fun s => s.expressionString)
    predicate := none
    name := props.triggerName
    actions := props.actions
    description := props.description
    type := TriggerType.token TriggerType.SCHEDULED }

/-- The ScheduledTrigger constructor of part_001: registers the construct in
the parent scope, emits the CfnTrigger Resource child, and derives the
deferred name and ARN of the new resource. -/
def ScheduledTrigger.construct (scope : Node) (id : String) (props : ScheduledTriggerProps) :
    Except CdkError (ScheduledTrigger × Node) :=
  match scope.declareChild id ConstructKind.construct with
  | Except.error e => Except.error e
  | Except.ok scope' =>
    Except.ok
      ({ node := ⟨[("Resource", ConstructKind.cfnTrigger (cfnOf props))]⟩
         triggerName := getResourceNameAttribute
         triggerArn := triggeerArn getResourceNameAttribute }, scope')

/-- The CfnTrigger record registered by a constructed ScheduledTrigger under
its Resource child, when present. -/
def ScheduledTrigger.emittedRecord (t : ScheduledTrigger) : Option CfnTriggerProps :=
  match t.node.tryFindChild "Resource" with
  | some (ConstructKind.cfnTrigger c) => some c
  | _ => none

end Part001

namespace Part000

/-- The triggerState enumeration of the part_000 revision (job run states),
each variant carrying its own name as string token. -/
inductive triggerState where
  | SUCCEEDED
  | FAILED
  | TIMEOUT
  | STARTING
  | RUNNING
  | STOPPING
  | STOPPED
deriving DecidableEq

/-- The string token of each triggerState variant of part_000. -/
def triggerState.token : triggerState → String
  | .SUCCEEDED => "SUCCEEDED"
  | .FAILED => "FAILED"
  | .TIMEOUT => "TIMEOUT"
  | .STARTING => "STARTING"
  | .RUNNING => "RUNNING"
  | .STOPPING => "STOPPING"
  | .STOPPED => "STOPPED"

/-- The state of a TriggerBase instance of part_000 while its event/metric
convenience methods run: its (deferred, here token) job name and its node in
the scope tree. -/
structure TriggerBase where
  jobName : String
  node : Node
deriving DecidableEq

/-- The events.Rule value built by onEvent of the part_000 TriggerBase: the
options description, the options target if any, and the fixed event pattern
with source aws.glue, the two Glue detail types and this job's name. -/
def baseRule (jobName : String) (options : OnEventOptions) : Rule :=
  { description := options.description
    targets := match options.target with | some t => [t] | none => []
    pattern :=
      { source := ["aws.glue"]
        detailType := ["Glue Job State Change", "Glue Job Run Status"]
        detailJobName := [jobName]
        detailState := [] } }

/-- onEvent of the part_000 TriggerBase: creates a new events.Rule child under
the given identifier (a duplicate identifier fails in the scope tree with the
collaborator's error), adds the options target and the fixed event pattern,
and returns the registered rule. -/
def TriggerBase.onEvent (self : TriggerBase) (id : String) (options : OnEventOptions) :
    Except CdkError (Rule × TriggerBase) :=
  match self.node.declareChild id (ConstructKind.rule (baseRule self.jobName options)) with
  | Except.error e => Except.error e
  | Except.ok n' => Except.ok (baseRule self.jobName options, { self with node := n' })

/-- The rule after the addEventPattern call of onStateChange: the detail.state
clause holding the state's token is appended to the rule's pattern. -/
def stateRule (r : Rule) (jobState : triggerState) : Rule :=
  { r with pattern :=
      { r.pattern with
          detailState := r.pattern.detailState ++ stateDetailClause jobState.token } }

/-- The options onStateChange passes to onEvent: a default description naming
the job and the state, overridden by the caller's description when present. -/
def stateChangeOptions (jobName : String) (jobState : triggerState)
    (options : OnEventOptions) : OnEventOptions :=
  { description := some (options.description.getD
      ("Rule triggered when Glue job " ++ jobName ++ " is in " ++
        jobState.token ++ " state"))
    target := options.target }

/-- onStateChange of the part_000 TriggerBase: calls onEvent, then adds the
detail.state clause to the created rule — the registered child is the same
(mutated) rule object, so the stored child is updated as well. -/
def TriggerBase.onStateChange (self : TriggerBase) (id : String) (jobState : triggerState)
    (options : OnEventOptions) : Except CdkError (Rule × TriggerBase) :=
  match self.onEvent id (stateChangeOptions self.jobName jobState options) with
  | Except.error e => Except.error e
  | Except.ok (rule, self') =>
    Except.ok (stateRule rule jobState,
      { self' with node := self'.node.setChild id (ConstructKind.rule (stateRule rule jobState)) })

/-- onSuccess of the part_000 TriggerBase: onStateChange at SUCCEEDED. -/
def TriggerBase.onSuccess (self : TriggerBase) (id : String) (options : OnEventOptions) :
    Except CdkError (Rule × TriggerBase) :=
  self.onStateChange id triggerState.SUCCEEDED options

/-- onFailure of the part_000 TriggerBase: onStateChange at FAILED. -/
def TriggerBase.onFailure (self : TriggerBase) (id : String) (options : OnEventOptions) :
    Except CdkError (Rule × TriggerBase) :=
  self.onStateChange id triggerState.FAILED options

/-- onTimeout of the part_000 TriggerBase: onStateChange at TIMEOUT. -/
def TriggerBase.onTimeout (self : TriggerBase) (id : String) (options : OnEventOptions) :
    Except CdkError (Rule × TriggerBase) :=
  self.onStateChange id triggerState.TIMEOUT options

/-- metricJobStateRule of the part_000 TriggerBase: the find-or-create lookup
backing metricSuccess, metricFailure and metricTimeout; it returns the child
already registered under the identifier when one exists, and only otherwise
creates one through onStateChange with default options. -/
def TriggerBase.metricJobStateRule (self : TriggerBase) (id : String)
    (jobState : triggerState) : Except CdkError (Rule × TriggerBase) :=
  match self.node.tryFindChild id with
  | some (ConstructKind.rule r) => Except.ok (r, self)
  | _ => self.onStateChange id jobState ⟨none, none⟩

end Part000

/-- An empty scope, as a fresh Stack provides in the repository's test. -/
def scope0 : Node := ⟨[]⟩

/-- The concrete resolution environment of the spec scenario: partition aws,
region us-east-1, account 123456789012, and the physical name the engine
assigns to the test's trigger, TriggerD50EE54C. -/
def env0 : Env := ⟨"aws", "us-east-1", "123456789012", "TriggerD50EE54C"⟩

/-- The defaultProps of the repository's test: type ON_DEMAND, actions empty,
workflowName empty, and every other field absent — in particular no schedule
and no predicate. -/
def propsMandatoryOnly : TriggerLib.TriggerProps :=
  { actions := []
    description := none
    predicate := none
    schedule := none
    startOnCreation := none
    type := TriggerLib.TriggerType.onDemand
    workflowName := ""
    triggerName := none
    tags := none
    role := none }

/-- A scheduled trigger's props with an explicit name: type Scheduled, the
cron schedule of the spec scenario, explicit trigger name test-trigger, no
explicit role, everything else absent or empty. -/
def propsScheduledNamed : TriggerLib.TriggerProps :=
  { actions := []
    description := none
    predicate := none
    schedule := some ⟨"cron(0 12 * * ? *)"⟩
    startOnCreation := none
    type := TriggerLib.TriggerType.Scheduled
    workflowName := ""
    triggerName := some "test-trigger"
    tags := none
    role := none }

/-- The CfnTrigger record the constructor emits for propsScheduledNamed. -/
def cfnScheduledNamed : CfnTriggerProps :=
  { workflowName := some ""
    tags := none
    startOnCreation := none
    schedule := some "cron(0 12 * * ? *)"
    predicate := none
    name := some "test-trigger"
    actions := []
    description := none
    type := "SCHEDULED" }

/-- The Trigger value produced by constructing propsScheduledNamed in an
empty scope under the identifier Trigger. -/
def tScheduledNamed : TriggerLib.Trigger :=
  { node := ⟨[("ServiceRole", ConstructKind.role TriggerLib.serviceRole),
              ("Resource", ConstructKind.cfnTrigger cfnScheduledNamed)]⟩
    role := TriggerLib.serviceRole
    grantPrincipal := TriggerLib.serviceRole
    triggerName := getResourceNameAttribute
    triggerArn := triggeerArn getResourceNameAttribute }

/-- The scope after the Trigger construct has been registered in it. -/
def scopeAfterTrigger : Node := ⟨[("Trigger", ConstructKind.construct)]⟩

/-- Part001 scheduled-trigger props for the concrete spec scenario. -/
def propsScheduled001 : Part001.ScheduledTriggerProps :=
  { actions := []
    description := none
    workflowName := none
    triggerName := none
    tags := none
    schedule := some ⟨"cron(0 12 * * ? *)"⟩
    startOnCreation := none }

/-- The CfnTrigger record the part_001 constructor emits for
propsScheduled001. -/
def cfnScheduled001 : CfnTriggerProps :=
  { workflowName := none
    tags := none
    startOnCreation := none
    schedule := some "cron(0 12 * * ? *)"
    predicate := none
    name := none
    actions := []
    description := none
    type := "SCHEDULED" }

/-- The ScheduledTrigger value produced by constructing propsScheduled001 in
an empty scope. -/
def tScheduled001 : Part001.ScheduledTrigger :=
  { node := ⟨[("Resource", ConstructKind.cfnTrigger cfnScheduled001)]⟩
    triggerName := getResourceNameAttribute
    triggerArn := triggeerArn getResourceNameAttribute }

/-- A fresh part_000 TriggerBase with an empty node, job name SomeJob. -/
def tb0 : Part000.TriggerBase := ⟨"SomeJob", ⟨[]⟩⟩

/-- The rule created by onStateChange at SUCCEEDED with default options on
tb0 under identifier Id. -/
def ruleSucceeded : Rule :=
  { description := some "Rule triggered when Glue job SomeJob is in SUCCEEDED state"
    targets := []
    pattern :=
      { source := ["aws.glue"]
        detailType := ["Glue Job State Change", "Glue Job Run Status"]
        detailJobName := ["SomeJob"]
        detailState := ["SUCCEEDED"] } }

/-- tb0 after that rule has been registered under Id. -/
def tb1 : Part000.TriggerBase := ⟨"SomeJob", ⟨[("Id", ConstructKind.rule ruleSucceeded)]⟩⟩


/-!
Helper lemmas about the scope-tree collaborator and the constructors,
followed by the claim theorems, their witnesses and the counterexample.
-/

theorem findChild_append_of_none {l : List (String × ConstructKind)} {id : String}
    (h : findChild l id = none) (k : ConstructKind) :
    findChild (l ++ [(id, k)]) id = some k := by
  induction l with
  | nil => simp [findChild]
  | cons p rest ih =>
    unfold findChild at h ⊢
    by_cases hp : p.1 = id
    · simp [hp] at h
    · simp only [hp, if_false, List.cons_append] at h ⊢
      exact ih h

theorem declareChild_ok {n : Node} {id : String} {k : ConstructKind} {n' : Node}
    (h : n.declareChild id k = Except.ok n') :
    n.tryFindChild id = none ∧ n' = ⟨n.children ++ [(id, k)]⟩ := by
  unfold Node.declareChild at h
  split at h
  · exact Except.noConfusion h
  · next hfind =>
    refine ⟨hfind, ?_⟩
    cases h
    rfl

theorem declareChild_find_self {n : Node} {id : String} {k : ConstructKind} {n' : Node}
    (h : n.declareChild id k = Except.ok n') :
    n'.tryFindChild id = some k := by
  obtain ⟨hnone, rfl⟩ := declareChild_ok h
  exact findChild_append_of_none hnone k

theorem declareChild_duplicate {n : Node} {id : String} {k0 : ConstructKind}
    (h : n.tryFindChild id = some k0) (k : ConstructKind) :
    n.declareChild id k = Except.error (CdkError.DuplicateDeclarationError id) := by
  unfold Node.declareChild
  rw [h]

theorem findChild_setChild {l : List (String × ConstructKind)} {id : String} {k0 : ConstructKind}
    (h : findChild l id = some k0) (k : ConstructKind) :
    findChild (l.map (fun p => if p.1 = id then (id, k) else p)) id = some k := by
  induction l with
  | nil => simp [findChild] at h
  | cons p rest ih =>
    unfold findChild at h
    by_cases hp : p.1 = id
    · simp [List.map_cons, hp, findChild]
    · simp only [hp, if_false] at h
      simp only [List.map_cons, hp, if_false, findChild]
      exact ih h

theorem setChild_find {n : Node} {id : String} {k0 : ConstructKind}
    (h : n.tryFindChild id = some k0) (k : ConstructKind) :
    (n.setChild id k).tryFindChild id = some k :=
  findChild_setChild h k

theorem construct_ok {scope : Node} {id : String} {props : TriggerLib.TriggerProps}
    {t : TriggerLib.Trigger} {s' : Node}
    (h : TriggerLib.Trigger.construct scope id props = Except.ok (t, s')) :
    ∃ sch, props.schedule = some sch
      ∧ scope.tryFindChild id = none
      ∧ s' = ⟨scope.children ++ [(id, ConstructKind.construct)]⟩
      ∧ t = { node := ⟨TriggerLib.roleChildren props.role ++
                       [("Resource", ConstructKind.cfnTrigger (TriggerLib.cfnOf props sch))]⟩
              role := props.role.getD TriggerLib.serviceRole
              grantPrincipal := props.role.getD TriggerLib.serviceRole
              triggerName := getResourceNameAttribute
              triggerArn := triggeerArn getResourceNameAttribute } := by
  unfold TriggerLib.Trigger.construct at h
  split at h
  · exact Except.noConfusion h
  · next scope1 hdecl =>
    split at h
    · exact Except.noConfusion h
    · next sch hsch =>
      obtain ⟨hfind, hs⟩ := declareChild_ok hdecl
      simp only [Except.ok.injEq, Prod.mk.injEq] at h
      obtain ⟨ht, hscope⟩ := h
      exact ⟨sch, hsch, hfind, hscope ▸ hs, ht.symm⟩

theorem scheduled_construct_ok {scope : Node} {id : String}
    {props : Part001.ScheduledTriggerProps}
    {t : Part001.ScheduledTrigger} {s' : Node}
    (h : Part001.ScheduledTrigger.construct scope id props = Except.ok (t, s')) :
    scope.tryFindChild id = none
      ∧ s' = ⟨scope.children ++ [(id, ConstructKind.construct)]⟩
      ∧ t = { node := ⟨[("Resource", ConstructKind.cfnTrigger (Part001.cfnOf props))]⟩
              triggerName := getResourceNameAttribute
              triggerArn := triggeerArn getResourceNameAttribute } := by
  unfold Part001.ScheduledTrigger.construct at h
  split at h
  · exact Except.noConfusion h
  · next scope1 hdecl =>
    obtain ⟨hfind, hs⟩ := declareChild_ok hdecl
    simp only [Except.ok.injEq, Prod.mk.injEq] at h
    obtain ⟨ht, hscope⟩ := h
    exact ⟨hfind, hscope ▸ hs, ht.symm⟩

theorem onEvent_ok {self : Part000.TriggerBase} {id : String} {options : OnEventOptions}
    {rule : Rule} {self' : Part000.TriggerBase}
    (h : Part000.TriggerBase.onEvent self id options = Except.ok (rule, self')) :
    rule = Part000.baseRule self.jobName options
      ∧ self'.jobName = self.jobName
      ∧ self'.node.tryFindChild id = some (ConstructKind.rule rule) := by
  unfold Part000.TriggerBase.onEvent at h
  split at h
  · exact Except.noConfusion h
  · next n' hdecl =>
    simp only [Except.ok.injEq, Prod.mk.injEq] at h
    obtain ⟨hrule, hself⟩ := h
    refine ⟨hrule.symm, ?_, ?_⟩
    · rw [← hself]
    · rw [← hself, ← hrule]
      exact declareChild_find_self hdecl

theorem onStateChange_ok {self : Part000.TriggerBase} {id : String}
    {jobState : Part000.triggerState} {options : OnEventOptions}
    {rule : Rule} {self' : Part000.TriggerBase}
    (h : Part000.TriggerBase.onStateChange self id jobState options = Except.ok (rule, self')) :
    self'.jobName = self.jobName
      ∧ self'.node.tryFindChild id = some (ConstructKind.rule rule) := by
  unfold Part000.TriggerBase.onStateChange at h
  split at h
  · exact Except.noConfusion h
  · next rule0 self1 hEvent =>
    obtain ⟨hrule0, hname1, hfind1⟩ := onEvent_ok hEvent
    simp only [Except.ok.injEq, Prod.mk.injEq] at h
    obtain ⟨hrule, hself⟩ := h
    constructor
    · rw [← hself]
      exact hname1
    · rw [← hself, hrule]
      exact setChild_find hfind1 _

/-- C1: for every constructed Trigger, the triggerArn attribute is derived
purely by formatting the fixed template
arn:(partition):glue:(region):(account):trigger/(name) from the deferred
partition, region and account values, the literal resource-type token
trigger, and the resolved trigger name; it is never independently stored:
the constructed value's triggerArn is exactly triggeerArn applied to its
own resolved name. -/
theorem c1_trigger_arn_pure_template :
    (∀ (nameD : Deferred) (env : Env),
      triggeerArn nameD env =
        "arn:" ++ env.partition ++ ":glue:" ++ env.region ++ ":" ++ env.account ++
          ":trigger/" ++ nameD env)
    ∧ (∀ (scope : Node) (id : String) (props : TriggerLib.TriggerProps)
        (t : TriggerLib.Trigger) (s' : Node),
        TriggerLib.Trigger.construct scope id props = Except.ok (t, s') →
        t.triggerArn = triggeerArn t.triggerName) := by
  constructor
  · intro nameD env
    simp [triggeerArn, formatArn, String.append_assoc]
  · intro scope id props t s' h
    obtain ⟨sch, hsch, hfind, hs, ht⟩ := construct_ok h
    rw [ht]

/-- C1 witness: at the concrete environment of the repository's test the
formatted ARN is the expected literal, and the concretely constructed
trigger's ARN is the formatting of its own name. -/
theorem c1_trigger_arn_pure_template_witness :
    triggeerArn getResourceNameAttribute env0 =
      "arn:aws:glue:us-east-1:123456789012:trigger/TriggerD50EE54C"
    ∧ tScheduledNamed.triggerArn = triggeerArn tScheduledNamed.triggerName :=
  ⟨(c1_trigger_arn_pure_template.1 getResourceNameAttribute env0).trans (by decide),
   c1_trigger_arn_pure_template.2 scope0 "Trigger" propsScheduledNamed
     tScheduledNamed scopeAfterTrigger rfl⟩

/-- C2: evaluating the Trigger constructor of lib/trigger.ts at the
repository's own test input — only the mandatory fields set, no schedule —
does not succeed as the claim and the test expect: it raises a TypeError
from the unguarded props.schedule.expressionString dereference. -/
theorem c2_mandatory_props_construction_throws :
    TriggerLib.Trigger.construct scope0 "Trigger" propsMandatoryOnly =
      Except.error (CdkError.TypeError
        "Cannot read properties of undefined (reading expressionString)") := rfl

/-- C3 counterexample: on a fresh TriggerBase, the first onSuccess call with
identifier Id succeeds and registers the rule, but the second call with the
same identifier does not return the same rule node — it fails with the
scope tree's duplicate-declaration error. -/
theorem c3_on_success_second_call_fails :
    Part000.TriggerBase.onSuccess tb0 "Id" ⟨none, none⟩ = Except.ok (ruleSucceeded, tb1)
    ∧ (Part000.TriggerBase.onSuccess tb0 "Id" ⟨none, none⟩).bind
        (fun p => Part000.TriggerBase.onSuccess p.2 "Id" ⟨none, none⟩) =
        Except.error (CdkError.DuplicateDeclarationError "Id") :=
  ⟨rfl, rfl⟩

/-- C3 as amended: the find-or-create lookup metricJobStateRule (backing the
metric accessors) is idempotently memoized — a repeated call with the same
identifier returns the same rule node and leaves the instance unchanged —
while the event-convenience accessors onSuccess, onFailure, onTimeout and
onStateChange are not memoized: each delegates to onStateChange, and a
second onStateChange with an identifier already used fails with the
propagated duplicate-declaration error instead of returning the previous
rule. -/
theorem c3_memoization_only_in_metric_rule :
    (∀ (self : Part000.TriggerBase) (id : String) (js : Part000.triggerState)
       (r : Rule) (self' : Part000.TriggerBase),
       Part000.TriggerBase.metricJobStateRule self id js = Except.ok (r, self') →
       Part000.TriggerBase.metricJobStateRule self' id js = Except.ok (r, self'))
    ∧ (∀ (self : Part000.TriggerBase) (id : String) (js : Part000.triggerState)
        (options : OnEventOptions) (r : Rule) (self' : Part000.TriggerBase),
        Part000.TriggerBase.onStateChange self id js options = Except.ok (r, self') →
        ∀ (js2 : Part000.triggerState) (options2 : OnEventOptions),
          Part000.TriggerBase.onStateChange self' id js2 options2 =
            Except.error (CdkError.DuplicateDeclarationError id))
    ∧ (∀ (self : Part000.TriggerBase) (id : String) (options : OnEventOptions),
        Part000.TriggerBase.onSuccess self id options =
          Part000.TriggerBase.onStateChange self id Part000.triggerState.SUCCEEDED options)
    ∧ (∀ (self : Part000.TriggerBase) (id : String) (options : OnEventOptions),
        Part000.TriggerBase.onFailure self id options =
          Part000.TriggerBase.onStateChange self id Part000.triggerState.FAILED options)
    ∧ (∀ (self : Part000.TriggerBase) (id : String) (options : OnEventOptions),
        Part000.TriggerBase.onTimeout self id options =
          Part000.TriggerBase.onStateChange self id Part000.triggerState.TIMEOUT options) := by
  refine ⟨?_, ?_, fun _ _ _ => rfl, fun _ _ _ => rfl, fun _ _ _ => rfl⟩
  · intro self id js r self' h
    unfold Part000.TriggerBase.metricJobStateRule at h ⊢
    split at h
    · next r0 hfind =>
      simp only [Except.ok.injEq, Prod.mk.injEq] at h
      obtain ⟨hr, hself⟩ := h
      rw [← hself, hfind, hr]
    · next hne =>
      obtain ⟨hname, hfind⟩ := onStateChange_ok h
      rw [hfind]
  · intro self id js options r self' h js2 options2
    obtain ⟨hname, hfind⟩ := onStateChange_ok h
    unfold Part000.TriggerBase.onStateChange Part000.TriggerBase.onEvent
    rw [declareChild_duplicate hfind _]

/-- C3 witness for the amended claim: concretely, a second metricJobStateRule
call returns the same memoized rule, and a second onStateChange call with
the same identifier fails with the duplicate-declaration error. -/
theorem c3_memoization_only_in_metric_rule_witness :
    Part000.TriggerBase.metricJobStateRule tb1 "Id" Part000.triggerState.SUCCEEDED =
      Except.ok (ruleSucceeded, tb1)
    ∧ Part000.TriggerBase.onStateChange tb1 "Id" Part000.triggerState.SUCCEEDED ⟨none, none⟩ =
      Except.error (CdkError.DuplicateDeclarationError "Id") :=
  ⟨c3_memoization_only_in_metric_rule.1 tb0 "Id" Part000.triggerState.SUCCEEDED
     ruleSucceeded tb1 rfl,
   c3_memoization_only_in_metric_rule.2.1 tb0 "Id" Part000.triggerState.SUCCEEDED
     ⟨none, none⟩ ruleSucceeded tb1 rfl Part000.triggerState.SUCCEEDED ⟨none, none⟩⟩

/-- C4: an explicitly supplied props.triggerName is written to the emitted
resource record's name field exactly, with no transformation. -/
theorem c4_explicit_name_passed_through :
    ∀ (scope : Node) (id : String) (props : TriggerLib.TriggerProps) (N : String)
      (t : TriggerLib.Trigger) (s' : Node),
      props.triggerName = some N →
      TriggerLib.Trigger.construct scope id props = Except.ok (t, s') →
      (TriggerLib.Trigger.emittedRecord t).map (fun c => c.name) = some (some N) := by
  intro scope id props N t s' hN h
  obtain ⟨sch, hsch, hfind, hs, ht⟩ := construct_ok h
  subst ht
  cases hrole : props.role <;>
    simp [TriggerLib.Trigger.emittedRecord, TriggerLib.roleChildren, hrole,
      Node.tryFindChild, findChild, TriggerLib.cfnOf, hN]

/-- C4 witness: the concrete construction with explicit name test-trigger
emits a record whose name field is exactly test-trigger. -/
theorem c4_explicit_name_passed_through_witness :
    (TriggerLib.Trigger.emittedRecord tScheduledNamed).map (fun c => c.name) =
      some (some "test-trigger") :=
  c4_explicit_name_passed_through scope0 "Trigger" propsScheduledNamed "test-trigger"
    tScheduledNamed scopeAfterTrigger rfl rfl

/-- C5: the TriggerType enumeration consists of exactly the four variants
SCHEDULED, EVENT, ON_DEMAND and CONDITIONAL, each carrying its own name as
string token, and the four variants are pairwise distinct members of a type
fixed at compile time. -/
theorem c5_trigger_type_enumeration :
    (∀ t : Part001.TriggerType,
      t = Part001.TriggerType.SCHEDULED ∨ t = Part001.TriggerType.EVENT ∨
      t = Part001.TriggerType.ON_DEMAND ∨ t = Part001.TriggerType.CONDITIONAL)
    ∧ (∀ t : Part001.TriggerType,
        Part001.TriggerType.token t = Part001.TriggerType.variantName t)
    ∧ [Part001.TriggerType.SCHEDULED, Part001.TriggerType.EVENT,
       Part001.TriggerType.ON_DEMAND, Part001.TriggerType.CONDITIONAL].Nodup := by
  refine ⟨fun t => ?_, fun t => ?_, by decide⟩
  · cases t <;> simp
  · cases t <;> rfl

/-- C6: when props.role is omitted the constructor registers exactly one
identity-role node, the ServiceRole trusted by glue.amazonaws.com and granted
the AWSGlueServiceRole managed policy, and resolves the instance role to it;
when props.role is supplied no role node is registered and the supplied role
is used unchanged. -/
theorem c6_default_role_creation :
    ∀ (scope : Node) (id : String) (props : TriggerLib.TriggerProps)
      (t : TriggerLib.Trigger) (s' : Node),
      TriggerLib.Trigger.construct scope id props = Except.ok (t, s') →
      (props.role = none →
        t.role = TriggerLib.serviceRole
        ∧ t.node.tryFindChild "ServiceRole" =
            some (ConstructKind.role TriggerLib.serviceRole)
        ∧ t.node.roleChildCount = 1)
      ∧ (∀ r : Role, props.role = some r →
        t.role = r ∧ t.node.roleChildCount = 0) := by
  intro scope id props t s' h
  obtain ⟨sch, hsch, hfind, hs, ht⟩ := construct_ok h
  subst ht
  constructor
  · intro hrole
    refine ⟨by simp [hrole], ?_, ?_⟩ <;>
      simp [TriggerLib.roleChildren, hrole, Node.tryFindChild, findChild,
        Node.roleChildCount]
  · intro r hrole
    refine ⟨by simp [hrole], ?_⟩
    simp [TriggerLib.roleChildren, hrole, Node.roleChildCount]

/-- C6 witness: the concrete construction without an explicit role creates
the service role once and registers exactly one role node. -/
theorem c6_default_role_creation_witness :
    tScheduledNamed.role = TriggerLib.serviceRole
    ∧ tScheduledNamed.node.tryFindChild "ServiceRole" =
        some (ConstructKind.role TriggerLib.serviceRole)
    ∧ tScheduledNamed.node.roleChildCount = 1 :=
  (c6_default_role_creation scope0 "Trigger" propsScheduledNamed
    tScheduledNamed scopeAfterTrigger rfl).1 rfl

/-- C7: constructing a second Trigger in the same scope under the same
identifier fails with the DuplicateDeclarationError propagated unchanged
from the scope-tree collaborator. -/
theorem c7_duplicate_identifier_fails :
    ∀ (scope : Node) (id : String) (p q : TriggerLib.TriggerProps)
      (t : TriggerLib.Trigger) (s' : Node),
      TriggerLib.Trigger.construct scope id p = Except.ok (t, s') →
      TriggerLib.Trigger.construct s' id q =
        Except.error (CdkError.DuplicateDeclarationError id) := by
  intro scope id p q t s' h
  obtain ⟨sch, hsch, hfind, hs, ht⟩ := construct_ok h
  subst hs
  have hfound : Node.tryFindChild ⟨scope.children ++ [(id, ConstructKind.construct)]⟩ id =
      some ConstructKind.construct :=
    findChild_append_of_none hfind ConstructKind.construct
  unfold TriggerLib.Trigger.construct
  rw [declareChild_duplicate hfound _]

/-- C7 witness: re-declaring the identifier Trigger in the scope already
holding the first trigger fails with the duplicate-declaration error. -/
theorem c7_duplicate_identifier_fails_witness :
    TriggerLib.Trigger.construct scopeAfterTrigger "Trigger" propsMandatoryOnly =
      Except.error (CdkError.DuplicateDeclarationError "Trigger") :=
  c7_duplicate_identifier_fails scope0 "Trigger" propsScheduledNamed propsMandatoryOnly
    tScheduledNamed scopeAfterTrigger rfl

/-- C8: a trigger constructed with type SCHEDULED and the cron schedule
expression emits a record whose schedule field is exactly that expression and
whose type field is SCHEDULED — for the Trigger of lib/trigger.ts and for
the ScheduledTrigger of part_001 alike. -/
theorem c8_scheduled_record_fields :
    (∀ (scope : Node) (id : String) (props : TriggerLib.TriggerProps)
       (t : TriggerLib.Trigger) (s' : Node),
       props.type = TriggerLib.TriggerType.Scheduled →
       props.schedule = some ⟨"cron(0 12 * * ? *)"⟩ →
       TriggerLib.Trigger.construct scope id props = Except.ok (t, s') →
       (TriggerLib.Trigger.emittedRecord t).map (fun c => (c.schedule, c.type)) =
         some (some "cron(0 12 * * ? *)", "SCHEDULED"))
    ∧ (∀ (scope : Node) (id : String) (props : Part001.ScheduledTriggerProps)
        (t : Part001.ScheduledTrigger) (s' : Node),
        props.schedule = some ⟨"cron(0 12 * * ? *)"⟩ →
        Part001.ScheduledTrigger.construct scope id props = Except.ok (t, s') →
        (Part001.ScheduledTrigger.emittedRecord t).map (fun c => (c.schedule, c.type)) =
          some (some "cron(0 12 * * ? *)", "SCHEDULED")) := by
  constructor
  · intro scope id props t s' htype hcron h
    obtain ⟨sch, hsch, hfind, hs, ht⟩ := construct_ok h
    subst ht
    rw [hcron] at hsch
    cases hsch
    cases hrole : props.role <;>
      simp [TriggerLib.Trigger.emittedRecord, TriggerLib.roleChildren, hrole,
        Node.tryFindChild, findChild, TriggerLib.cfnOf, htype,
        TriggerLib.TriggerType.Scheduled]
  · intro scope id props t s' hcron h
    obtain ⟨hfind, hs, ht⟩ := scheduled_construct_ok h
    subst ht
    simp [Part001.ScheduledTrigger.emittedRecord, Node.tryFindChild, findChild,
      Part001.cfnOf, hcron, Part001.TriggerType.token]

/-- C8 witness: the two concrete scheduled constructions emit records with
exactly the cron expression and the SCHEDULED type token. -/
theorem c8_scheduled_record_fields_witness :
    (TriggerLib.Trigger.emittedRecord tScheduledNamed).map (fun c => (c.schedule, c.type)) =
      some (some "cron(0 12 * * ? *)", "SCHEDULED")
    ∧ (Part001.ScheduledTrigger.emittedRecord tScheduled001).map
        (fun c => (c.schedule, c.type)) =
      some (some "cron(0 12 * * ? *)", "SCHEDULED") :=
  ⟨c8_scheduled_record_fields.1 scope0 "Trigger" propsScheduledNamed
     tScheduledNamed scopeAfterTrigger rfl rfl rfl,
   c8_scheduled_record_fields.2 scope0 "Trigger" propsScheduled001
     tScheduled001 scopeAfterTrigger rfl rfl⟩

/-- C9: for every constructed Trigger, grantPrincipal is identical to the
resolved role — the supplied props.role when one is given, the auto-created
service role otherwise. -/
theorem c9_grant_principal_is_role :
    ∀ (scope : Node) (id : String) (props : TriggerLib.TriggerProps)
      (t : TriggerLib.Trigger) (s' : Node),
      TriggerLib.Trigger.construct scope id props = Except.ok (t, s') →
      t.grantPrincipal = t.role
      ∧ (props.role = none → t.role = TriggerLib.serviceRole)
      ∧ (∀ r : Role, props.role = some r → t.role = r) := by
  intro scope id props t s' h
  obtain ⟨sch, hsch, hfind, hs, ht⟩ := construct_ok h
  subst ht
  refine ⟨rfl, fun hrole => by simp [hrole], fun r hrole => by simp [hrole]⟩

/-- C9 witness: concretely the constructed trigger's grantPrincipal equals
its role, which is the auto-created service role. -/
theorem c9_grant_principal_is_role_witness :
    tScheduledNamed.grantPrincipal = tScheduledNamed.role
    ∧ tScheduledNamed.role = TriggerLib.serviceRole :=
  ⟨(c9_grant_principal_is_role scope0 "Trigger" propsScheduledNamed
      tScheduledNamed scopeAfterTrigger rfl).1,
   (c9_grant_principal_is_role scope0 "Trigger" propsScheduledNamed
      tScheduledNamed scopeAfterTrigger rfl).2.1 rfl⟩

/-- C10: the token of TriggerState.ACTIVATED is the space-prefixed string,
in the lib/trigger.ts enum and in the part_001 enum alike, while every other
variant's token equals its variant name exactly; a detail.state clause built
from the ACTIVATED token therefore embeds the space-prefixed token. -/
theorem c10_activated_token_leading_space :
    TriggerLib.TriggerState.token TriggerLib.TriggerState.ACTIVATED = " ACTIVATED"
    ∧ (∀ s : TriggerLib.TriggerState,
        TriggerLib.TriggerState.token s =
          if s = TriggerLib.TriggerState.ACTIVATED
          then " " ++ TriggerLib.TriggerState.variantName s
          else TriggerLib.TriggerState.variantName s)
    ∧ Part001.TriggerState.token Part001.TriggerState.ACTIVATED = " ACTIVATED"
    ∧ (∀ s : Part001.TriggerState,
        Part001.TriggerState.token s =
          if s = Part001.TriggerState.ACTIVATED
          then " " ++ Part001.TriggerState.variantName s
          else Part001.TriggerState.variantName s)
    ∧ stateDetailClause (TriggerLib.TriggerState.token TriggerLib.TriggerState.ACTIVATED) =
        [" ACTIVATED"] := by
  refine ⟨rfl, fun s => ?_, rfl, fun s => ?_, rfl⟩ <;> cases s <;> decide

end AwsGlue
